import Mathlib

/-!
Verification development for the Petstore end-to-end test suite.

The repository is a Playwright test suite (TypeScript).  The effectful
browser operations are embedded shallowly: each fallible UI step is driven
by an explicit environment oracle that records whether the step succeeds or
raises, and the procedures under verification become pure state-passing
functions over that oracle.  File writes and console logs are modelled as
lists accumulated in the state.
-/

namespace Petstore

/- ===================================================================
   Global Setup procedure (src/setup/globalSetup.ts)
   =================================================================== -/

/-- Observable state of the global-setup run: files written so far (in
order, by path) and console log lines emitted so far. -/
structure GsState where
  files : List String
  logs : List String
deriving Repr, DecidableEq

/-- `context.storageState({ path })`: serialises the in-memory browsing
context state to a local file at `path`. -/
def storageState (path : String) (s : GsState) : GsState :=
  { s with files := s.files ++ [path] }

/-- `console.log(msg)`. -/
def consoleLog (msg : String) (s : GsState) : GsState :=
  { s with logs := s.logs ++ [msg] }

/-- Environment oracle for one run of `globalSetup`: which of the fallible
browser steps raise, whether the post-login URL still contains `/login`,
and what `loginPage.getErrorMessage()` yields (`none` models the call
raising, which the inner `try/catch` guards against). -/
structure GsEnv where
  gotoFails : Bool
  loginFails : Bool
  settleFails : Bool
  urlIncludesLogin : Bool
  errorMessage : Option String
  username : String
  password : String

/-- Body of the outer `try` block of `globalSetup` (lines 13-44 of
`src/setup/globalSetup.ts`).  Returns the state reached together with a
flag recording whether an exception escaped the block. -/
def globalSetupTry (env : GsEnv) (s : GsState) : GsState × Bool :=
  if env.gotoFails then (s, true)
  else if env.loginFails then (s, true)
  else if env.settleFails then (s, true)
  else if !env.urlIncludesLogin then
    let s := storageState "auth-state.json" s
    let s := consoleLog "Global Setup: Authentication successful and saved" s
    (s, false)
  else
    let s :=
      match env.errorMessage with
      | some m =>
          let s := consoleLog ("Global Setup: Login failed with error: " ++ m) s
          consoleLog ("Global Setup: Credentials used - Username: " ++ env.username
            ++ " Password: " ++ env.password) s
      | none => consoleLog "Global Setup: Login failed, no error message found" s
    let s := storageState "auth-state.json" s
    let s := consoleLog "Global Setup: Fixtures will handle authentication" s
    (s, false)

/-- `globalSetup` (src/setup/globalSetup.ts): runs the `try` body; the
catch-all handler logs and still persists the snapshot; the `finally`
closes the browser.  The `Except` component records whether an exception
propagates to the caller. -/
def globalSetup (env : GsEnv) : GsState × Except Unit Unit :=
  let s := consoleLog "Global Setup: Starting authentication..." { files := [], logs := [] }
  let (s, threw) := globalSetupTry env s
  if threw then
    let s := consoleLog "Global Setup: Error during login, fixtures will handle authentication" s
    let s := storageState "auth-state.json" s
    (s, Except.ok ())
  else
    (s, Except.ok ())

end Petstore

open Petstore

/-- C1: every execution of `globalSetup` — login success, login failure, or
an exception raised at any fallible step of the attempt — writes the
session snapshot `auth-state.json` and returns without propagating an
exception. -/
theorem C1_globalSetup_always_writes_snapshot_never_throws (env : GsEnv) :
    (globalSetup env).2 = Except.ok () ∧
    "auth-state.json" ∈ (globalSetup env).1.files := by
  unfold globalSetup globalSetupTry
  rcases env with ⟨g, l, w, u, e, un, pw⟩
  cases g <;> cases l <;> cases w <;> cases u <;> cases e <;>
    simp [storageState, consoleLog]

/-- C5: when the navigation steps of `globalSetup` succeed, the procedure
branches on the resulting URL: off the login surface it persists the
snapshot and logs success; still on the login surface it reads the visible
error message for diagnostics (or logs that none was found), still persists
the snapshot, logs that fixtures will handle authentication, and returns
without throwing. -/
theorem C5_globalSetup_branches_on_login_url (env : GsEnv)
    (h1 : env.gotoFails = false) (h2 : env.loginFails = false)
    (h3 : env.settleFails = false) :
    (globalSetup env).2 = Except.ok () ∧
    (env.urlIncludesLogin = false →
      "auth-state.json" ∈ (globalSetup env).1.files ∧
      "Global Setup: Authentication successful and saved" ∈ (globalSetup env).1.logs) ∧
    (env.urlIncludesLogin = true →
      "auth-state.json" ∈ (globalSetup env).1.files ∧
      "Global Setup: Fixtures will handle authentication" ∈ (globalSetup env).1.logs ∧
      (∀ m, env.errorMessage = some m →
        ("Global Setup: Login failed with error: " ++ m) ∈ (globalSetup env).1.logs) ∧
      (env.errorMessage = none →
        "Global Setup: Login failed, no error message found" ∈ (globalSetup env).1.logs)) := by
  unfold globalSetup globalSetupTry
  rcases env with ⟨g, l, w, u, e, un, pw⟩
  simp only at h1 h2 h3
  subst h1; subst h2; subst h3
  cases u <;> cases e <;> simp [storageState, consoleLog]

/-- A concrete environment where navigation succeeded but login failed and
a visible error message is present. -/
def gsEnvLoginFailed : GsEnv :=
  { gotoFails := false, loginFails := false, settleFails := false,
    urlIncludesLogin := true, errorMessage := some "Invalid credentials",
    username := "admin", password := "secret" }

/-- Witness for C5 at a concrete environment where login failed with a
visible error message. -/
theorem C5_witness :
    (globalSetup gsEnvLoginFailed).2 = Except.ok () ∧
    "auth-state.json" ∈ (globalSetup gsEnvLoginFailed).1.files ∧
    ("Global Setup: Login failed with error: " ++ "Invalid credentials") ∈
      (globalSetup gsEnvLoginFailed).1.logs := by
  refine ⟨(C5_globalSetup_branches_on_login_url gsEnvLoginFailed rfl rfl rfl).1, ?_, ?_⟩
  · exact ((C5_globalSetup_branches_on_login_url gsEnvLoginFailed rfl rfl rfl).2.2 rfl).1
  · exact ((C5_globalSetup_branches_on_login_url gsEnvLoginFailed rfl rfl rfl).2.2 rfl).2.2.1
      "Invalid credentials" rfl

namespace Petstore

/- ===================================================================
   Credential/Data Provider (src/utils/dataProvider.ts)
   =================================================================== -/

/-- A credential record from the static fixture. -/
structure UserRecord where
  username : String
  password : String
deriving Repr, DecidableEq

/-- The parsed static fixture `testData.json`: a JSON object whose `users`
member maps role keys to credential records.  A JSON object is a finite
key/value sequence with distinct keys; it is embedded as an association
list. -/
structure TestData where
  users : List (String × UserRecord)
deriving Repr, DecidableEq

/-- The property keys every plain JS object (such as the `JSON.parse`
result) inherits from `Object.prototype`: its standard own properties
together with the `__proto__` accessor and the Annex B legacy accessors. -/
def objectPrototypeKeys : List String :=
  ["constructor", "hasOwnProperty", "isPrototypeOf", "propertyIsEnumerable",
   "toLocaleString", "toString", "valueOf", "__proto__", "__defineGetter__",
   "__defineSetter__", "__lookupGetter__", "__lookupSetter__"]

/-- A value that JS property access on the `users` object can produce: one
of its own credential records, a member inherited from `Object.prototype`
(recorded by its key), or `undefined`. -/
inductive JsValue
  | record (r : UserRecord)
  | inherited (key : String)
  | undef
deriving Repr, DecidableEq

/-- JS property access `data.users[type]`: an own key yields its stored
record (own properties shadow the prototype); for any other key the
prototype chain is consulted, so the keys of `Object.prototype` yield the
inherited member; only keys found nowhere on the chain yield `undefined`.
Property access on a present object never raises. -/
def usersAccess (d : TestData) (type : String) : JsValue :=
  match (d.users.find? (fun p => p.1 == type)).map Prod.snd with
  | some r => JsValue.record r
  | none =>
      if type ∈ objectPrototypeKeys then JsValue.inherited type
      else JsValue.undef

namespace DataProvider

/-- `DataProvider.getUser`: reads and parses the static fixture, then
returns `data.users[type]` with no transformation applied. -/
def getUser (d : TestData) (type : String) : JsValue :=
  usersAccess d type

end DataProvider

/-- Modelled from the spec: the static fixture file `data/testData.json`
itself is not in the repository snapshot; per the spec it is a JSON
document keyed by role whose credential records carry non-empty
username/password strings. -/
def FixtureWellFormed (d : TestData) : Prop :=
  (∀ p ∈ d.users, p.2.username ≠ "" ∧ p.2.password ≠ "") ∧
  (d.users.map Prod.fst).Nodup

/-- In an association list with distinct keys, `find?` on a key returns
exactly the pair stored for that key. -/
theorem find_assoc_eq (l : List (String × UserRecord)) (role : String)
    (rec : UserRecord) (hnd : (l.map Prod.fst).Nodup)
    (hmem : (role, rec) ∈ l) :
    l.find? (fun p => p.1 == role) = some (role, rec) := by
  induction l with
  | nil => cases hmem
  | cons p tl ih =>
      rcases List.mem_cons.mp hmem with h | h
      · subst h
        simp [List.find?]
      · have hkey : p.1 ≠ role := by
          intro hk
          have : role ∈ tl.map Prod.fst := List.mem_map.mpr ⟨(role, rec), h, rfl⟩
          rw [List.map_cons, List.nodup_cons] at hnd
          exact hnd.1 (hk ▸ this)
        have : (p.1 == role) = false := beq_eq_false_iff_ne.mpr hkey
        rw [List.find?]
        simp only [this]
        exact ih (by
          rw [List.map_cons, List.nodup_cons] at hnd
          exact hnd.2) h

end Petstore

/-- C6: for every role present in the static fixture, `DataProvider.getUser`
returns exactly the fixture's record for that role, untransformed (own keys
shadow the prototype chain), and both credential fields are non-empty
strings. -/
theorem C6_getUser_exact_untransformed (d : TestData) (role : String)
    (rec : UserRecord) (hwf : FixtureWellFormed d) (hmem : (role, rec) ∈ d.users) :
    DataProvider.getUser d role = JsValue.record rec ∧
    rec.username ≠ "" ∧ rec.password ≠ "" := by
  refine ⟨?_, (hwf.1 (role, rec) hmem).1, (hwf.1 (role, rec) hmem).2⟩
  unfold DataProvider.getUser usersAccess
  rw [find_assoc_eq d.users role rec hwf.2 hmem]
  rfl

/-- A concrete fixture with an admin role, for the C6 witness. -/
def testDataDemo : TestData :=
  { users := [("admin", { username := "TestUser", password := "TestPass123" })] }

/-- Witness for C6 at the concrete fixture's admin role. -/
theorem C6_witness :
    DataProvider.getUser testDataDemo "admin" =
      JsValue.record { username := "TestUser", password := "TestPass123" } ∧
    ({ username := "TestUser", password := "TestPass123" } : UserRecord).username ≠ "" ∧
    ({ username := "TestUser", password := "TestPass123" } : UserRecord).password ≠ "" :=
  C6_getUser_exact_untransformed testDataDemo "admin"
    { username := "TestUser", password := "TestPass123" }
    (by constructor
        · intro p hp
          simp [testDataDemo] at hp
          subst hp
          constructor <;> decide
        · simp [testDataDemo])
    (by simp [testDataDemo])

/-- C10 counterexample: `"toString"` is not a key of the fixture's `users`
object, yet `DataProvider.getUser` does not return `undefined` for it — JS
bracket access finds the inherited `Object.prototype.toString`.  So the
claim's universal "absent key returns undefined" is false of the
program. -/
theorem C10_counterexample :
    "toString" ∉ testDataDemo.users.map Prod.fst ∧
    DataProvider.getUser testDataDemo "toString" ≠ JsValue.undef := by
  constructor
  · decide
  · decide

/-- C10 (amended): for a role string that is neither a key of the fixture's
`users` object nor one of the property keys inherited from
`Object.prototype`, `DataProvider.getUser` returns `undefined` silently —
the miss is not raised as an error. -/
theorem C10_getUser_missing_role_is_undef (d : TestData) (role : String)
    (habs : role ∉ d.users.map Prod.fst) (hproto : role ∉ objectPrototypeKeys) :
    DataProvider.getUser d role = JsValue.undef := by
  unfold DataProvider.getUser usersAccess
  have hfind : d.users.find? (fun p => p.1 == role) = none := by
    rw [List.find?_eq_none]
    intro p hp
    simp only [beq_iff_eq]
    intro hk
    exact habs (List.mem_map.mpr ⟨p, hp, hk⟩)
  rw [hfind]
  simp [hproto]

/-- Witness for the amended C10 at a role absent from both the concrete
fixture and the prototype chain. -/
theorem C10_witness : DataProvider.getUser testDataDemo "guest" = JsValue.undef :=
  C10_getUser_missing_role_is_undef testDataDemo "guest" (by simp [testDataDemo])
    (by decide)

namespace Petstore

/- ===================================================================
   PetsPage.createNewPet (src/pages/petsPage.ts, lines 131-255)
   =================================================================== -/

/-- Pet status enum of the add-pet form. -/
inductive Status
  | available
  | pending
  | sold
deriving Repr, DecidableEq

/-- The `petData` argument of `createNewPet`. -/
structure PetData where
  name : String
  status : Option Status
  category : Option String
  tags : Option (List String)
  imagePath : Option String
deriving Repr, DecidableEq

/-- The record returned by `createNewPet`. -/
structure CreatedPet where
  name : String
  status : Option Status
  category : Option String
  tags : Option (List String)
  imagePath : Option String
  imageUploaded : Bool
deriving Repr, DecidableEq

/-- Observable UI events emitted by the workflow, in order. -/
inductive Ev
  | openDialog
  | fillName (s : String)
  | selectStatus (st : Status)
  | fillCategory (c : String)
  | addTag (t : String)
  | uploadFile (p : String)
  | fixedDelay (ms : Nat)
  | waitCreateVisible
  | waitEnableCleared (timeoutMs : Nat)
  | clickCreate
  | waitDialogHidden
deriving Repr, DecidableEq

/-- Environment oracle for one run of `createNewPet`: whether each fallible
UI step raises, and what the attachment `try` block observes
(`fileExists` for `fs.existsSync`, `uploadThrows` for any exception inside
the block, e.g. a missing `#images__drag-drop` drop target). -/
structure PetsEnv where
  selectAddNewPetFails : Bool
  generalInfoFails : Bool
  fillNameFails : Bool
  statusSelectFails : Bool
  categoryFails : Bool
  tagsFail : Bool
  imagesSectionFails : Bool
  fileExists : Bool
  uploadThrows : Bool
  createVisibleFails : Bool
  enableWaitTimesOut : Bool
  dialogHideFails : Bool

/-- Run state of the workflow: whether an exception is propagating, whether
the add-pet dialog is open, the `createdPetData.imageUploaded` field, and
the trace of emitted UI events. -/
structure RunState where
  threw : Bool
  dialogOpen : Bool
  imageUploaded : Bool
  events : List Ev
deriving Repr, DecidableEq

/-- Perform a UI step that emits an event (no-op once an exception is
propagating). -/
def RunState.emit (s : RunState) (e : Ev) : RunState :=
  if s.threw then s else { s with events := s.events ++ [e] }

/-- Raise when `b` is true (no-op once an exception is propagating). -/
def RunState.failIf (s : RunState) (b : Bool) : RunState :=
  if s.threw then s else if b then { s with threw := true } else s

/-- Record the dialog's visibility (no-op once an exception is
propagating). -/
def RunState.setDialog (s : RunState) (b : Bool) : RunState :=
  if s.threw then s else { s with dialogOpen := b }

/-- Assign `createdPetData.imageUploaded` (no-op once an exception is
propagating). -/
def RunState.setUploaded (s : RunState) (b : Bool) : RunState :=
  if s.threw then s else { s with imageUploaded := b }

/-- The `for (const tag of petData.tags)` loop: fill and add each tag. -/
def addTags (ts : List String) (s : RunState) : RunState :=
  ts.foldl (fun s t => s.emit (Ev.addTag t)) s

/-- State at the start of a run. -/
def initialRun : RunState :=
  { threw := false, dialogOpen := false, imageUploaded := false, events := [] }

/-- Lines 155-160: `selectAddNewPet` (open the menu, click "add pet", wait
for the dialog) plus opening the general-information section. -/
def openDialogStep (env : PetsEnv) (s : RunState) : RunState :=
  (((s.failIf env.selectAddNewPetFails).emit Ev.openDialog).setDialog true).failIf
    env.generalInfoFails

/-- Line 161: `petNameField.fill(petData.name)`. -/
def nameStep (env : PetsEnv) (pd : PetData) (s : RunState) : RunState :=
  (s.failIf env.fillNameFails).emit (Ev.fillName pd.name)

/-- Lines 163-166: select the status when one is supplied. -/
def statusStep (env : PetsEnv) (pd : PetData) (s : RunState) : RunState :=
  match pd.status with
  | some st => (s.failIf env.statusSelectFails).emit (Ev.selectStatus st)
  | none => s

/-- Lines 168-173: fill the category section when a category is supplied. -/
def categoryStep (env : PetsEnv) (pd : PetData) (s : RunState) : RunState :=
  match pd.category with
  | some c => (s.failIf env.categoryFails).emit (Ev.fillCategory c)
  | none => s

/-- Lines 175-184: open the tags section and add each tag when tags are
supplied. -/
def tagsStep (env : PetsEnv) (pd : PetData) (s : RunState) : RunState :=
  match pd.tags with
  | some ts => addTags ts (s.failIf env.tagsFail)
  | none => s

/-- Lines 155-184: open the add-pet dialog, fill the general-information
section, and fill the optional status, category and tags sections. -/
def fillPhase (env : PetsEnv) (pd : PetData) (s : RunState) : RunState :=
  tagsStep env pd (categoryStep env pd (statusStep env pd (nameStep env pd
    (openDialogStep env s))))

/-- Lines 186-238: the optional attachment step.  Opening the images
section is outside the `try`; everything from `fs.existsSync` through
`page.evaluate` is inside it, and any exception there is caught and
reflected solely in `imageUploaded`.  A fixed 1s delay follows; with no
image path, `imageUploaded` is assigned `false`. -/
def imagePhase (env : PetsEnv) (pd : PetData) (s : RunState) : RunState :=
  match pd.imagePath with
  | some p =>
      let s := s.failIf env.imagesSectionFails
      let s :=
        if env.fileExists then
          if env.uploadThrows then s.setUploaded false
          else ((s.emit (Ev.uploadFile p)).setUploaded true)
        else s.setUploaded false
      s.emit (Ev.fixedDelay 1000)
  | none => s.setUploaded false

/-- Lines 240-251: wait for the CREATE button to be visible, poll (bounded
by a 10000 ms timeout) until its `disabled` attribute clears, click it, and
wait for the dialog to become hidden. -/
def commitPhase (env : PetsEnv) (s : RunState) : RunState :=
  (((((((s.failIf env.createVisibleFails).emit Ev.waitCreateVisible).failIf
      env.enableWaitTimesOut).emit (Ev.waitEnableCleared 10000)).emit
      Ev.clickCreate).failIf env.dialogHideFails).emit Ev.waitDialogHidden).setDialog false

/-- `PetsPage.createNewPet`: the complete workflow.  Returns the final run
state and, when no exception propagated, the `createdPetData` copy built at
lines 145-153 with the derived `imageUploaded` flag. -/
def createNewPet (env : PetsEnv) (pd : PetData) : RunState × Option CreatedPet :=
  let s := commitPhase env (imagePhase env pd (fillPhase env pd initialRun))
  (s,
    if s.threw then none
    else some { name := pd.name, status := pd.status, category := pd.category,
                tags := pd.tags, imagePath := pd.imagePath,
                imageUploaded := s.imageUploaded })

/-- An environment in which every UI step outside the attachment `try`
block succeeds (the attachment observations stay free). -/
def PetsEnv.nominal (e : PetsEnv) : Prop :=
  e.selectAddNewPetFails = false ∧ e.generalInfoFails = false ∧
  e.fillNameFails = false ∧ e.statusSelectFails = false ∧
  e.categoryFails = false ∧ e.tagsFail = false ∧
  e.imagesSectionFails = false ∧ e.createVisibleFails = false ∧
  e.enableWaitTimesOut = false ∧ e.dialogHideFails = false

end Petstore

namespace Petstore

/- Combinator algebra for `RunState`. -/

@[simp]
theorem emit_threw (s : RunState) (e : Ev) : (s.emit e).threw = s.threw := by
  unfold RunState.emit; split <;> rfl

@[simp]
theorem emit_dialogOpen (s : RunState) (e : Ev) : (s.emit e).dialogOpen = s.dialogOpen := by
  unfold RunState.emit; split <;> rfl

@[simp]
theorem emit_imageUploaded (s : RunState) (e : Ev) :
    (s.emit e).imageUploaded = s.imageUploaded := by
  unfold RunState.emit; split <;> rfl

@[simp]
theorem failIf_events (s : RunState) (b : Bool) : (s.failIf b).events = s.events := by
  unfold RunState.failIf; split_ifs <;> rfl

@[simp]
theorem failIf_dialogOpen (s : RunState) (b : Bool) :
    (s.failIf b).dialogOpen = s.dialogOpen := by
  unfold RunState.failIf; split_ifs <;> rfl

@[simp]
theorem failIf_imageUploaded (s : RunState) (b : Bool) :
    (s.failIf b).imageUploaded = s.imageUploaded := by
  unfold RunState.failIf; split_ifs <;> rfl

@[simp]
theorem failIf_false_eq (s : RunState) : s.failIf false = s := by
  simp [RunState.failIf]

@[simp]
theorem setDialog_events (s : RunState) (b : Bool) : (s.setDialog b).events = s.events := by
  unfold RunState.setDialog; split <;> rfl

@[simp]
theorem setDialog_threw (s : RunState) (b : Bool) : (s.setDialog b).threw = s.threw := by
  unfold RunState.setDialog; split <;> rfl

@[simp]
theorem setDialog_imageUploaded (s : RunState) (b : Bool) :
    (s.setDialog b).imageUploaded = s.imageUploaded := by
  unfold RunState.setDialog; split <;> rfl

@[simp]
theorem setUploaded_events (s : RunState) (b : Bool) : (s.setUploaded b).events = s.events := by
  unfold RunState.setUploaded; split <;> rfl

@[simp]
theorem setUploaded_threw (s : RunState) (b : Bool) : (s.setUploaded b).threw = s.threw := by
  unfold RunState.setUploaded; split <;> rfl

@[simp]
theorem setUploaded_dialogOpen (s : RunState) (b : Bool) :
    (s.setUploaded b).dialogOpen = s.dialogOpen := by
  unfold RunState.setUploaded; split <;> rfl

theorem emit_of_threw (s : RunState) (e : Ev) (h : s.threw = true) : s.emit e = s := by
  unfold RunState.emit; rw [h]; rfl

theorem failIf_of_threw (s : RunState) (b : Bool) (h : s.threw = true) : s.failIf b = s := by
  unfold RunState.failIf; rw [h]; rfl

theorem setDialog_of_threw (s : RunState) (b : Bool) (h : s.threw = true) : s.setDialog b = s := by
  unfold RunState.setDialog; rw [h]; rfl

theorem setUploaded_of_threw (s : RunState) (b : Bool) (h : s.threw = true) :
    s.setUploaded b = s := by
  unfold RunState.setUploaded; rw [h]; rfl

@[simp]
theorem addTags_nil (s : RunState) : addTags [] s = s := rfl

theorem addTags_cons (t : String) (ts : List String) (s : RunState) :
    addTags (t :: ts) s = addTags ts (s.emit (Ev.addTag t)) := rfl

@[simp]
theorem addTags_threw (ts : List String) (s : RunState) : (addTags ts s).threw = s.threw := by
  induction ts generalizing s with
  | nil => rfl
  | cons t ts ih => rw [addTags_cons, ih, emit_threw]

@[simp]
theorem addTags_dialogOpen (ts : List String) (s : RunState) :
    (addTags ts s).dialogOpen = s.dialogOpen := by
  induction ts generalizing s with
  | nil => rfl
  | cons t ts ih => rw [addTags_cons, ih, emit_dialogOpen]

@[simp]
theorem addTags_imageUploaded (ts : List String) (s : RunState) :
    (addTags ts s).imageUploaded = s.imageUploaded := by
  induction ts generalizing s with
  | nil => rfl
  | cons t ts ih => rw [addTags_cons, ih, emit_imageUploaded]

/- The fill and image phases never emit `clickCreate`. -/

theorem noclick_emit {s : RunState} {e : Ev} (he : e ≠ Ev.clickCreate)
    (h : Ev.clickCreate ∉ s.events) : Ev.clickCreate ∉ (s.emit e).events := by
  unfold RunState.emit
  split
  · exact h
  · intro hc
    rcases List.mem_append.mp hc with hc | hc
    · exact h hc
    · exact he (List.mem_singleton.mp hc).symm

theorem noclick_failIf {s : RunState} {b : Bool} (h : Ev.clickCreate ∉ s.events) :
    Ev.clickCreate ∉ (s.failIf b).events := by
  rw [failIf_events]; exact h

theorem noclick_setDialog {s : RunState} {b : Bool} (h : Ev.clickCreate ∉ s.events) :
    Ev.clickCreate ∉ (s.setDialog b).events := by
  rw [setDialog_events]; exact h

theorem noclick_setUploaded {s : RunState} {b : Bool} (h : Ev.clickCreate ∉ s.events) :
    Ev.clickCreate ∉ (s.setUploaded b).events := by
  rw [setUploaded_events]; exact h

theorem noclick_addTags {ts : List String} {s : RunState} (h : Ev.clickCreate ∉ s.events) :
    Ev.clickCreate ∉ (addTags ts s).events := by
  induction ts generalizing s with
  | nil => exact h
  | cons t ts ih => exact ih (noclick_emit (by intro hc; cases hc) h)

theorem noclick_openDialogStep (env : PetsEnv) {s : RunState}
    (h : Ev.clickCreate ∉ s.events) : Ev.clickCreate ∉ (openDialogStep env s).events := by
  unfold openDialogStep
  exact noclick_failIf (noclick_setDialog (noclick_emit (by intro hc; cases hc)
    (noclick_failIf h)))

theorem noclick_nameStep (env : PetsEnv) (pd : PetData) {s : RunState}
    (h : Ev.clickCreate ∉ s.events) : Ev.clickCreate ∉ (nameStep env pd s).events := by
  unfold nameStep
  exact noclick_emit (by intro hc; cases hc) (noclick_failIf h)

theorem noclick_statusStep (env : PetsEnv) (pd : PetData) {s : RunState}
    (h : Ev.clickCreate ∉ s.events) : Ev.clickCreate ∉ (statusStep env pd s).events := by
  unfold statusStep
  cases hst : pd.status with
  | some st => exact noclick_emit (by intro hc; cases hc) (noclick_failIf h)
  | none => exact h

theorem noclick_categoryStep (env : PetsEnv) (pd : PetData) {s : RunState}
    (h : Ev.clickCreate ∉ s.events) : Ev.clickCreate ∉ (categoryStep env pd s).events := by
  unfold categoryStep
  cases hc : pd.category with
  | some c => exact noclick_emit (by intro hc; cases hc) (noclick_failIf h)
  | none => exact h

theorem noclick_tagsStep (env : PetsEnv) (pd : PetData) {s : RunState}
    (h : Ev.clickCreate ∉ s.events) : Ev.clickCreate ∉ (tagsStep env pd s).events := by
  unfold tagsStep
  cases ht : pd.tags with
  | some ts => exact noclick_addTags (noclick_failIf h)
  | none => exact h

theorem noclick_fillPhase (env : PetsEnv) (pd : PetData) {s : RunState}
    (h : Ev.clickCreate ∉ s.events) : Ev.clickCreate ∉ (fillPhase env pd s).events := by
  unfold fillPhase
  exact noclick_tagsStep env pd (noclick_categoryStep env pd (noclick_statusStep env pd
    (noclick_nameStep env pd (noclick_openDialogStep env h))))

theorem noclick_imagePhase (env : PetsEnv) (pd : PetData) {s : RunState}
    (h : Ev.clickCreate ∉ s.events) : Ev.clickCreate ∉ (imagePhase env pd s).events := by
  unfold imagePhase
  cases hip : pd.imagePath with
  | some p =>
      cases hf : env.fileExists with
      | true =>
          cases hu : env.uploadThrows with
          | true =>
              exact noclick_emit (by intro hc; cases hc)
                (noclick_setUploaded (noclick_failIf h))
          | false =>
              exact noclick_emit (by intro hc; cases hc) (noclick_setUploaded
                (noclick_emit (by intro hc; cases hc) (noclick_failIf h)))
      | false =>
          exact noclick_emit (by intro hc; cases hc) (noclick_setUploaded (noclick_failIf h))
  | none => exact noclick_setUploaded h

theorem commitPhase_of_threw (env : PetsEnv) {s : RunState} (h : s.threw = true) :
    commitPhase env s = s := by
  unfold commitPhase
  rw [failIf_of_threw _ _ h, emit_of_threw _ _ h, failIf_of_threw _ _ h, emit_of_threw _ _ h,
    emit_of_threw _ _ h, failIf_of_threw _ _ h, emit_of_threw _ _ h, setDialog_of_threw _ _ h]

end Petstore

namespace Petstore

theorem setDialog_dialogOpen_of {s : RunState} {b : Bool} (h : s.threw = false) :
    (s.setDialog b).dialogOpen = b := by
  unfold RunState.setDialog
  rw [h]
  rfl

theorem setUploaded_imageUploaded_of {s : RunState} {b : Bool} (h : s.threw = false) :
    (s.setUploaded b).imageUploaded = b := by
  unfold RunState.setUploaded
  rw [h]
  rfl

/-- Under an environment where the fill-section steps succeed, the fill
phase raises nothing, leaves the dialog open, and does not touch
`imageUploaded`. -/
theorem fillPhase_nominal (env : PetsEnv) (pd : PetData) (s : RunState)
    (hn : env.nominal) (h : s.threw = false) :
    (fillPhase env pd s).threw = false ∧ (fillPhase env pd s).dialogOpen = true ∧
    (fillPhase env pd s).imageUploaded = s.imageUploaded := by
  obtain ⟨e1, e2, e3, e4, e5, e6, -, -, -, -⟩ := hn
  unfold fillPhase tagsStep categoryStep statusStep nameStep openDialogStep
  cases hst : pd.status <;> cases hcat : pd.category <;> cases htg : pd.tags <;>
    simp [e1, e2, e3, e4, e5, e6, setDialog_dialogOpen_of, h]

/-- When opening the images section succeeds, the image phase raises
nothing, leaves the dialog as it was, and computes `imageUploaded` from the
attachment observations. -/
theorem imagePhase_nominal (env : PetsEnv) (pd : PetData) (s : RunState)
    (h7 : env.imagesSectionFails = false) (h : s.threw = false) :
    (imagePhase env pd s).threw = false ∧
    (imagePhase env pd s).dialogOpen = s.dialogOpen ∧
    (imagePhase env pd s).imageUploaded =
      (match pd.imagePath with
       | some _ => env.fileExists && !env.uploadThrows
       | none => false) := by
  unfold imagePhase
  cases hip : pd.imagePath <;> cases hf : env.fileExists <;> cases hu : env.uploadThrows <;>
    simp [h7, hf, hu, setUploaded_imageUploaded_of, h]

/-- When the commit steps succeed, the commit phase appends exactly the
wait-visible, wait-enabled, click, wait-hidden events and closes the
dialog. -/
theorem commitPhase_nominal (env : PetsEnv) (s : RunState)
    (h8 : env.createVisibleFails = false) (h9 : env.enableWaitTimesOut = false)
    (h10 : env.dialogHideFails = false) (h : s.threw = false) :
    commitPhase env s =
      { threw := false, dialogOpen := false, imageUploaded := s.imageUploaded,
        events := s.events ++ [Ev.waitCreateVisible, Ev.waitEnableCleared 10000,
          Ev.clickCreate, Ev.waitDialogHidden] } := by
  unfold commitPhase
  simp [h8, h9, h10, RunState.emit, RunState.setDialog, RunState.failIf, h]

end Petstore

/-- C2: under an environment where the UI steps succeed, `createNewPet`
called with a name of length at least 3, a supplied (valid) status and no
image path completes without raising, ends with the add-pet dialog hidden,
and returns the copied record with `imageUploaded = false`. -/
theorem C2_createNewPet_no_image_completes (env : PetsEnv) (pd : PetData) (st : Status)
    (hn : env.nominal) (hname : 3 ≤ pd.name.length) (hst : pd.status = some st)
    (hip : pd.imagePath = none) :
    (createNewPet env pd).1.threw = false ∧
    (createNewPet env pd).1.dialogOpen = false ∧
    (createNewPet env pd).2 =
      some { name := pd.name, status := pd.status, category := pd.category,
             tags := pd.tags, imagePath := pd.imagePath, imageUploaded := false } := by
  have hfill := fillPhase_nominal env pd initialRun hn rfl
  have himg := imagePhase_nominal env pd (fillPhase env pd initialRun)
    hn.2.2.2.2.2.2.1 hfill.1
  have hcommit := commitPhase_nominal env (imagePhase env pd (fillPhase env pd initialRun))
    hn.2.2.2.2.2.2.2.1 hn.2.2.2.2.2.2.2.2.1 hn.2.2.2.2.2.2.2.2.2 himg.1
  have hupl : (imagePhase env pd (fillPhase env pd initialRun)).imageUploaded = false := by
    rw [himg.2.2, hip]
  unfold createNewPet
  rw [hcommit]
  simp [hupl]

/-- A concrete environment in which every UI step succeeds and the
attachment observations are benign. -/
def petsEnvNominal : PetsEnv :=
  { selectAddNewPetFails := false, generalInfoFails := false, fillNameFails := false,
    statusSelectFails := false, categoryFails := false, tagsFail := false,
    imagesSectionFails := false, fileExists := true, uploadThrows := false,
    createVisibleFails := false, enableWaitTimesOut := false, dialogHideFails := false }

/-- A concrete pet with no image path. -/
def petNoImage : PetData :=
  { name := "Rex", status := some Status.available, category := none,
    tags := some ["loyal"], imagePath := none }

/-- Witness for C2 at a concrete environment and pet. -/
theorem C2_witness :
    (createNewPet petsEnvNominal petNoImage).1.threw = false ∧
    (createNewPet petsEnvNominal petNoImage).1.dialogOpen = false ∧
    (createNewPet petsEnvNominal petNoImage).2 =
      some { name := petNoImage.name, status := petNoImage.status,
             category := petNoImage.category, tags := petNoImage.tags,
             imagePath := petNoImage.imagePath, imageUploaded := false } :=
  C2_createNewPet_no_image_completes petsEnvNominal petNoImage Status.available
    (by constructor <;> simp [petsEnvNominal, PetsEnv.nominal]) (by decide) rfl rfl

/-- C3: with an image path supplied, a failure of the attachment step alone
(missing file, or an exception inside the upload block such as a missing
drop target) is swallowed by the workflow: `createNewPet` still completes
without raising and reports the failure solely as `imageUploaded = false`
in the returned record. -/
theorem C3_attachment_failure_swallowed (env : PetsEnv) (pd : PetData) (p : String)
    (hn : env.nominal) (hip : pd.imagePath = some p)
    (hfail : env.fileExists = false ∨ env.uploadThrows = true) :
    (createNewPet env pd).1.threw = false ∧
    (createNewPet env pd).2 =
      some { name := pd.name, status := pd.status, category := pd.category,
             tags := pd.tags, imagePath := pd.imagePath, imageUploaded := false } := by
  have hfill := fillPhase_nominal env pd initialRun hn rfl
  have himg := imagePhase_nominal env pd (fillPhase env pd initialRun)
    hn.2.2.2.2.2.2.1 hfill.1
  have hcommit := commitPhase_nominal env (imagePhase env pd (fillPhase env pd initialRun))
    hn.2.2.2.2.2.2.2.1 hn.2.2.2.2.2.2.2.2.1 hn.2.2.2.2.2.2.2.2.2 himg.1
  have hupl : (imagePhase env pd (fillPhase env pd initialRun)).imageUploaded = false := by
    rw [himg.2.2, hip]
    rcases hfail with hf | hu
    · simp [hf]
    · simp [hu]
  unfold createNewPet
  rw [hcommit]
  simp [hupl]

/-- A concrete environment where the attachment file is missing and
everything else succeeds. -/
def petsEnvNoFile : PetsEnv :=
  { petsEnvNominal with fileExists := false }

/-- A concrete pet with an image path. -/
def petWithImage : PetData :=
  { name := "Rex", status := some Status.available, category := some "Dog",
    tags := none, imagePath := some "./assets/pet-dog-1.jpg" }

/-- Witness for C3 at a concrete environment whose attachment file is
missing. -/
theorem C3_witness :
    (createNewPet petsEnvNoFile petWithImage).1.threw = false ∧
    (createNewPet petsEnvNoFile petWithImage).2 =
      some { name := petWithImage.name, status := petWithImage.status,
             category := petWithImage.category, tags := petWithImage.tags,
             imagePath := petWithImage.imagePath, imageUploaded := false } :=
  C3_attachment_failure_swallowed petsEnvNoFile petWithImage "./assets/pet-dog-1.jpg"
    (by constructor <;> simp [petsEnvNoFile, petsEnvNominal, PetsEnv.nominal]) rfl
    (Or.inl rfl)

namespace Petstore

/-- Shorthand for the run state reached before the commit phase. -/
def preCommit (env : PetsEnv) (pd : PetData) : RunState :=
  imagePhase env pd (fillPhase env pd initialRun)

theorem preCommit_noclick (env : PetsEnv) (pd : PetData) :
    Ev.clickCreate ∉ (preCommit env pd).events :=
  noclick_imagePhase env pd (noclick_fillPhase env pd (List.not_mem_nil _))

theorem createNewPet_fst (env : PetsEnv) (pd : PetData) :
    (createNewPet env pd).1 = commitPhase env (preCommit env pd) := rfl

theorem commitPhase_visibleFails (env : PetsEnv) {s : RunState} (h : s.threw = false)
    (h8 : env.createVisibleFails = true) :
    commitPhase env s = { s with threw := true } := by
  unfold commitPhase
  simp [RunState.failIf, RunState.emit, RunState.setDialog, h, h8]

theorem commitPhase_enableTimesOut (env : PetsEnv) {s : RunState} (h : s.threw = false)
    (h8 : env.createVisibleFails = false) (h9 : env.enableWaitTimesOut = true) :
    commitPhase env s =
      { s with threw := true, events := s.events ++ [Ev.waitCreateVisible] } := by
  unfold commitPhase
  simp [RunState.failIf, RunState.emit, RunState.setDialog, h, h8, h9]

theorem commitPhase_hideFails (env : PetsEnv) {s : RunState} (h : s.threw = false)
    (h8 : env.createVisibleFails = false) (h9 : env.enableWaitTimesOut = false)
    (h10 : env.dialogHideFails = true) :
    commitPhase env s =
      { s with threw := true,
               events := s.events ++ [Ev.waitCreateVisible, Ev.waitEnableCleared 10000,
                 Ev.clickCreate] } := by
  unfold commitPhase
  simp [RunState.failIf, RunState.emit, RunState.setDialog, h, h8, h9, h10]

end Petstore

/-- C8: in every run of `createNewPet`, the commit click happens only
immediately after the bounded poll-wait (timeout 10000 ms) has observed the
submit control's disabled attribute clear — a trace can contain
`clickCreate` only right after `waitEnableCleared 10000` — and a run that
returns normally ends by waiting for the dialog to become hidden after the
click, with the dialog closed. -/
theorem C8_click_only_after_enable_wait (env : PetsEnv) (pd : PetData) :
    (Ev.clickCreate ∈ (createNewPet env pd).1.events →
      ∃ l₁ l₂, (createNewPet env pd).1.events =
        l₁ ++ [Ev.waitEnableCleared 10000, Ev.clickCreate] ++ l₂) ∧
    ((createNewPet env pd).1.threw = false →
      ∃ l₁, (createNewPet env pd).1.events =
        l₁ ++ [Ev.waitCreateVisible, Ev.waitEnableCleared 10000, Ev.clickCreate,
          Ev.waitDialogHidden] ∧
      (createNewPet env pd).1.dialogOpen = false) := by
  rw [createNewPet_fst]
  have hnc := preCommit_noclick env pd
  cases hs : (preCommit env pd).threw with
  | true =>
      rw [commitPhase_of_threw env hs]
      constructor
      · intro hmem
        exact absurd hmem hnc
      · intro hok
        rw [hs] at hok
        cases hok
  | false =>
      cases h8 : env.createVisibleFails with
      | true =>
          rw [commitPhase_visibleFails env hs h8]
          constructor
          · intro hmem
            exact absurd hmem hnc
          · intro hok
            cases hok
      | false =>
          cases h9 : env.enableWaitTimesOut with
          | true =>
              rw [commitPhase_enableTimesOut env hs h8 h9]
              constructor
              · intro hmem
                rcases List.mem_append.mp hmem with hmem | hmem
                · exact absurd hmem hnc
                · cases List.mem_singleton.mp hmem
              · intro hok
                cases hok
          | false =>
              cases h10 : env.dialogHideFails with
              | true =>
                  rw [commitPhase_hideFails env hs h8 h9 h10]
                  constructor
                  · intro hmem
                    refine ⟨(preCommit env pd).events ++ [Ev.waitCreateVisible], [], ?_⟩
                    simp
                  · intro hok
                    cases hok
              | false =>
                  rw [commitPhase_nominal env _ h8 h9 h10 hs]
                  constructor
                  · intro hmem
                    refine ⟨(preCommit env pd).events ++ [Ev.waitCreateVisible],
                      [Ev.waitDialogHidden], ?_⟩
                    simp
                  · intro hok
                    exact ⟨(preCommit env pd).events, rfl, rfl⟩

/-- Witness for C8 at a concrete environment and pet: the click is present
in the trace and the decompositions exist. -/
theorem C8_witness :
    (∃ l₁ l₂, (createNewPet petsEnvNominal petNoImage).1.events =
      l₁ ++ [Ev.waitEnableCleared 10000, Ev.clickCreate] ++ l₂) ∧
    (∃ l₁, (createNewPet petsEnvNominal petNoImage).1.events =
      l₁ ++ [Ev.waitCreateVisible, Ev.waitEnableCleared 10000, Ev.clickCreate,
        Ev.waitDialogHidden] ∧
      (createNewPet petsEnvNominal petNoImage).1.dialogOpen = false) :=
  ⟨(C8_click_only_after_enable_wait petsEnvNominal petNoImage).1 (by decide),
   (C8_click_only_after_enable_wait petsEnvNominal petNoImage).2 (by decide)⟩

namespace Petstore

/- ===================================================================
   PetsPage.getNameFieldError (src/pages/petsPage.ts, lines 320-328)
   =================================================================== -/

/-- What the UI does while `getNameFieldError` runs: the error element
never becomes visible within the 2 s bounded wait, some exception occurs
inside the guarded block (e.g. the element detaches), or the element is
visible with the given `textContent` (`none` models a null
`textContent`). -/
inductive NameErrorUi
  | neverVisible
  | innerThrow
  | text (t : Option String)
deriving Repr, DecidableEq

/-- The `try` body of `getNameFieldError`: wait up to 2 s for the error to
be visible, then `(await textContent())?.trim() || null` — a null
`textContent` or an all-whitespace text collapses to null. -/
def getNameFieldErrorBody : NameErrorUi → Except Unit (Option String)
  | NameErrorUi.neverVisible => Except.error ()
  | NameErrorUi.innerThrow => Except.error ()
  | NameErrorUi.text none => Except.ok none
  | NameErrorUi.text (some t) =>
      Except.ok (if t.trim = "" then none else some t.trim)

/-- `PetsPage.getNameFieldError`: the `try` body with the catch-all
handler `catch { return null }`. -/
def getNameFieldError (ui : NameErrorUi) : Except Unit (Option String) :=
  match getNameFieldErrorBody ui with
  | Except.ok r => Except.ok r
  | Except.error _ => Except.ok none

end Petstore

/-- C4: `getNameFieldError` never raises: every run returns normally with
either `null` (no error visible within the bounded wait, or nothing to
report) or the trimmed visible validation-error text. -/
theorem C4_getNameFieldError_total (ui : NameErrorUi) :
    ∃ r, getNameFieldError ui = Except.ok r ∧
      (r = none ∨ ∃ t, ui = NameErrorUi.text (some t) ∧ r = some t.trim ∧ t.trim ≠ "") := by
  cases ui with
  | neverVisible => exact ⟨none, rfl, Or.inl rfl⟩
  | innerThrow => exact ⟨none, rfl, Or.inl rfl⟩
  | text t =>
      cases t with
      | none => exact ⟨none, rfl, Or.inl rfl⟩
      | some t =>
          by_cases he : t.trim = ""
          · refine ⟨none, ?_, Or.inl rfl⟩
            simp [getNameFieldError, getNameFieldErrorBody, he]
          · refine ⟨some t.trim, ?_, Or.inr ⟨t, rfl, rfl, he⟩⟩
            simp [getNameFieldError, getNameFieldErrorBody, he]

namespace Petstore

/- ===================================================================
   authenticatedPage fixture (src/fixtures/baseTest.ts, lines 29-43)
   =================================================================== -/

/-- How the consuming test body ends. -/
inductive TestOutcome
  | passed
  | failed
  | threw
deriving Repr, DecidableEq

/-- Observable fixture events. -/
inductive FxEv
  | newContext (storageStatePath : String)
  | newPage
  | yieldToTest (o : TestOutcome)
  | closeContext
deriving Repr, DecidableEq

/-- A fixture body: the acquisition steps before `use`, and the release
steps after it. -/
structure Fixture where
  before : List FxEv
  after : List FxEv

/-- Test-runner fixture semantics: the acquisition steps run, `use` yields
to the test, and — per the runner's contract — `await use(page)` resolves
after the test body completes whether it passed, failed or threw, so the
release steps always run. -/
def runFixture (fx : Fixture) (o : TestOutcome) : List FxEv :=
  fx.before ++ [FxEv.yieldToTest o] ++ fx.after

/-- The `authenticatedPage` fixture: a new browsing context seeded from the
persisted snapshot `auth-state.json`, a new page in it, the yield, and the
context close as release step. -/
def authenticatedPage : Fixture :=
  { before := [FxEv.newContext "auth-state.json", FxEv.newPage],
    after := [FxEv.closeContext] }

end Petstore

/-- C7: for every test outcome — passed, failed, or threw — the
`authenticatedPage` fixture first creates a context seeded from
`auth-state.json`, then opens a page, then yields to the test, and closes
the context afterwards. -/
theorem C7_authenticatedPage_lifecycle (o : TestOutcome) :
    runFixture authenticatedPage o =
      [FxEv.newContext "auth-state.json", FxEv.newPage, FxEv.yieldToTest o,
        FxEv.closeContext] := rfl

namespace Petstore

/- ===================================================================
   The createdPetData copy (src/pages/petsPage.ts, lines 145-153)
   =================================================================== -/

/-- A heap of JS arrays of strings; an address is an index into the
store.  This models JS reference semantics for the caller-owned `tags`
array. -/
structure Heap where
  arrays : List (List String)
deriving Repr, DecidableEq

/-- Read the array at an address (an out-of-range address reads as
empty; all addresses used in the theorems are allocated). -/
def Heap.lookup (h : Heap) (a : Nat) : List String :=
  h.arrays.getD a []

/-- Allocate a fresh array (as `[...tags]` does) and return its address. -/
def Heap.alloc (h : Heap) (xs : List String) : Heap × Nat :=
  ({ arrays := h.arrays ++ [xs] }, h.arrays.length)

/-- Mutate the array at an address in place. -/
def Heap.write (h : Heap) (a : Nat) (xs : List String) : Heap :=
  { arrays := h.arrays.set a xs }

/-- `petData` with JS reference semantics for its `tags` array. -/
structure PetDataRef where
  name : String
  status : Option Status
  category : Option String
  tags : Option Nat
  imagePath : Option String
deriving Repr, DecidableEq

/-- The record built at lines 145-153, with reference semantics. -/
structure CreatedPetRef where
  name : String
  status : Option Status
  category : Option String
  tags : Option Nat
  imagePath : Option String
  imageUploaded : Bool
deriving Repr, DecidableEq

/-- Lines 145-153 of `createNewPet`: build `createdPetData` by copying
each scalar field, spreading `tags` into a freshly allocated array
(`petData.tags ? [...petData.tags] : undefined`), and initialising
`imageUploaded` to `false`.  The caller's `petData` is not written to. -/
def copyPetData (h : Heap) (pd : PetDataRef) : Heap × CreatedPetRef :=
  match pd.tags with
  | some a =>
      let al := h.alloc (h.lookup a)
      (al.1, { name := pd.name, status := pd.status, category := pd.category,
               tags := some al.2, imagePath := pd.imagePath, imageUploaded := false })
  | none =>
      (h, { name := pd.name, status := pd.status, category := pd.category,
            tags := none, imagePath := pd.imagePath, imageUploaded := false })

theorem getD_append_self (l : List (List String)) (x : List String) :
    (l ++ [x]).getD l.length [] = x := by
  induction l with
  | nil => rfl
  | cons a l ih => simpa using ih

theorem getD_append_of_lt (l : List (List String)) (x : List String) (a : Nat)
    (ha : a < l.length) : (l ++ [x]).getD a [] = l.getD a [] := by
  induction l generalizing a with
  | nil => cases ha
  | cons b l ih =>
      cases a with
      | zero => rfl
      | succ a => simpa using ih a (Nat.lt_of_succ_lt_succ ha)

theorem getD_set_ne (l : List (List String)) (x : List String) (a b : Nat)
    (hab : a ≠ b) : (l.set a x).getD b [] = l.getD b [] := by
  induction l generalizing a b with
  | nil => rfl
  | cons c l ih =>
      cases a with
      | zero =>
          cases b with
          | zero => exact absurd rfl hab
          | succ b => rfl
      | succ a =>
          cases b with
          | zero => rfl
          | succ b => simpa using ih a b (fun hc => hab (by rw [hc]))

end Petstore

/-- C9: the record built by `createNewPet` (lines 145-153) is a copy
decoupled from the caller-owned input: scalar fields equal the input's,
`tags` points to a freshly allocated array (a different address than the
caller's) with equal contents, the caller's array is untouched, and a later
in-place mutation of the caller's array cannot change the array the
returned record points to. -/
theorem C9_createdPetData_is_decoupled_copy (h : Heap) (pd : PetDataRef) (a : Nat)
    (ha : pd.tags = some a) (hv : a < h.arrays.length) :
    (copyPetData h pd).2.name = pd.name ∧
    (copyPetData h pd).2.status = pd.status ∧
    (copyPetData h pd).2.category = pd.category ∧
    (copyPetData h pd).2.imagePath = pd.imagePath ∧
    (copyPetData h pd).2.imageUploaded = false ∧
    ∃ b, (copyPetData h pd).2.tags = some b ∧ b ≠ a ∧
      (copyPetData h pd).1.lookup b = h.lookup a ∧
      (copyPetData h pd).1.lookup a = h.lookup a ∧
      ∀ xs, (((copyPetData h pd).1).write a xs).lookup b =
        ((copyPetData h pd).1).lookup b := by
  unfold copyPetData
  rw [ha]
  refine ⟨rfl, rfl, rfl, rfl, rfl, h.arrays.length, rfl, hv.ne', ?_, ?_, ?_⟩
  · exact getD_append_self h.arrays (h.lookup a)
  · exact getD_append_of_lt h.arrays (h.lookup a) a hv
  · intro xs
    exact getD_set_ne (h.arrays ++ [h.lookup a]) xs a h.arrays.length hv.ne

/-- A concrete heap and pet reference for the C9 witness. -/
def heapDemo : Heap := { arrays := [["loyal", "friendly"]] }

/-- A concrete pet whose `tags` field points at address 0 of `heapDemo`. -/
def petRefDemo : PetDataRef :=
  { name := "Rex", status := some Status.available, category := some "Dog",
    tags := some 0, imagePath := none }

/-- Witness for C9 at the concrete heap: the copy lives at address 1,
shares contents with address 0, and survives a mutation of address 0. -/
theorem C9_witness :
    (copyPetData heapDemo petRefDemo).2.name = petRefDemo.name ∧
    ∃ b, (copyPetData heapDemo petRefDemo).2.tags = some b ∧ b ≠ 0 ∧
      (copyPetData heapDemo petRefDemo).1.lookup b = heapDemo.lookup 0 ∧
      (copyPetData heapDemo petRefDemo).1.lookup 0 = heapDemo.lookup 0 ∧
      ∀ xs, (((copyPetData heapDemo petRefDemo).1).write 0 xs).lookup b =
        ((copyPetData heapDemo petRefDemo).1).lookup b := by
  have hmain := C9_createdPetData_is_decoupled_copy heapDemo petRefDemo 0 rfl
    (by decide)
  exact ⟨hmain.1, hmain.2.2.2.2.2⟩
